import Mathlib

/-!
Shallow embedding of the storage core of `src/main.py` (a note-taking
service persisting a single JSON document to a remote blob or a local
file), together with proofs about its behavior.

Modelling conventions:
* JSON values are the inductive type `Json`; a Python `dict` is `Json.obj`
  with an insertion-ordered association list (keys unique, as produced by
  the JSON parser and by our own updates); JSON `null` and Python `None`
  are both `Json.null` (Python's json module decodes null to None).
* Raw stored bytes are abstracted by their parse outcome `Raw`:
  `Raw.malformed` stands for bytes on which the JSON parser raises
  `JSONDecodeError` (this includes the empty file created by `touch`),
  and `Raw.wellFormed v` for bytes parsing to the value `v`.
* Python exceptions are modelled by `Except String`; the string is the
  message handed to `str(e)` by the `catch_errors_2/3` wrappers.
* Mutable global state (`state`, the local file, the remote blob) lives in
  `World`; every function is state-passing: `World → Except String α × World`.
  `World.writes` is a ghost log of every whole-document overwrite, used to
  state atomicity properties; it does not influence control flow.
-/

inductive Json where
  | null : Json
  | bool : Bool → Json
  | num : Int → Json
  | str : String → Json
  | arr : List Json → Json
  | obj : List (String × Json) → Json

mutual
/-- Python `==` between decoded JSON values of the shapes the source
compares (cross-type comparisons yield `False`; the `True == 1` special
case is unreachable in the source, which only compares against strings
and `None`). -/
def Json.beq : Json → Json → Bool
  | .null, .null => true
  | .bool a, .bool b => a == b
  | .num a, .num b => a == b
  | .str a, .str b => a == b
  | .arr a, .arr b => Json.beqList a b
  | .obj a, .obj b => Json.beqObj a b
  | _, _ => false

/-- Elementwise `Json.beq` on lists. -/
def Json.beqList : List Json → List Json → Bool
  | [], [] => true
  | x :: xs, y :: ys => Json.beq x y && Json.beqList xs ys
  | _, _ => false

/-- Elementwise `Json.beq` on dict entries. -/
def Json.beqObj : List (String × Json) → List (String × Json) → Bool
  | [], [] => true
  | (k, v) :: xs, (l, u) :: ys => k == l && Json.beq v u && Json.beqObj xs ys
  | _, _ => false
end

/-- Python `x is None` (JSON `null` decodes to Python `None`). -/
def Json.isNull : Json → Bool
  | .null => true
  | _ => false

/-- Lookup of a key in an ordered association list (Python `dict` access). -/
def lookupKey : List (String × Json) → String → Option Json
  | [], _ => none
  | (k, v) :: r, key => if k = key then some v else lookupKey r key

/-- Assignment `d[key] = v` on a Python dict: updates the existing entry in
place, else appends at the end (Python 3.7+ insertion order). -/
def setKey : List (String × Json) → String → Json → List (String × Json)
  | [], key, v => [(key, v)]
  | (k, w) :: r, key, v =>
      if k = key then (key, v) :: r else (k, w) :: setKey r key v

/-- Deletion `del d[key]` on a Python dict (the callers only delete
present keys). -/
def delKey : List (String × Json) → String → List (String × Json)
  | [], _ => []
  | (k, w) :: r, key => if k = key then r else (k, w) :: delKey r key

/-- Python truthiness of a decoded JSON value (`bool(x)`). -/
def truthy : Json → Bool
  | .null => false
  | .bool b => b
  | .num n => n != 0
  | .str s => !s.data.isEmpty
  | .arr l => !l.isEmpty
  | .obj o => !o.isEmpty

/-- Python `x or y` specialised to the pattern `load_notes() or {}` of the
source: keeps a truthy value, replaces a falsy one by the default. -/
def pyOr (j d : Json) : Json := if truthy j then j else d

mutual
/-- Python `repr` of a decoded JSON value, used by `str` on containers.
String escaping inside `repr` is not modelled (no caller of the model
reaches it with strings needing escapes). -/
def pyRepr : Json → String
  | .null => "None"
  | .bool b => cond b "True" "False"
  | .num n => toString n
  | .str s => "\x27" ++ s ++ "\x27"
  | .arr l => "[" ++ pyReprList l ++ "]"
  | .obj o => "\x7b" ++ pyReprObj o ++ "\x7d"

/-- Comma-separated `repr` of list elements. -/
def pyReprList : List Json → String
  | [] => ""
  | [x] => pyRepr x
  | x :: r => pyRepr x ++ ", " ++ pyReprList r

/-- Comma-separated `repr` of dict entries. -/
def pyReprObj : List (String × Json) → String
  | [] => ""
  | [(k, v)] => "\x27" ++ k ++ "\x27: " ++ pyRepr v
  | (k, v) :: r => "\x27" ++ k ++ "\x27: " ++ pyRepr v ++ ", " ++ pyReprObj r
end

/-- Python `str(x)` on a decoded JSON value (`str(id)` in `add_note`). -/
def pyStr : Json → String
  | .null => "None"
  | .bool b => cond b "True" "False"
  | .num n => toString n
  | .str s => s
  | .arr l => pyRepr (.arr l)
  | .obj o => pyRepr (.obj o)

/-- Whitespace stripping on both ends of a character list (Python
`str.strip()` with no argument; ASCII whitespace suffices for the inputs
of interest). -/
def pyStripChars (l : List Char) : List Char :=
  ((l.dropWhile Char.isWhitespace).reverse.dropWhile Char.isWhitespace).reverse

/-- Python `s.strip()`. -/
def pyStrip (s : String) : String := ⟨pyStripChars s.data⟩

/-- Numeric value of a digit list. -/
def digitsVal (l : List Char) : Nat :=
  l.foldl (fun acc c => acc * 10 + (c.toNat - 48)) 0

/-- Python `int(s)` on a string: strips surrounding whitespace, accepts an
optional single sign followed by decimal digits, else raises `ValueError`
(`none`). Python's underscore digit grouping is not modelled (no input of
interest contains an underscore). -/
def pyInt (s : String) : Option Int :=
  let t := pyStripChars s.data
  let core : List Char × Int :=
    match t with
    | '+' :: r => (r, 1)
    | '-' :: r => (r, -1)
    | _ => (t, 1)
  if core.1 ≠ [] ∧ core.1.all Char.isDigit then
    some (core.2 * (digitsVal core.1 : Int))
  else none

/-- Prefix test on character lists. -/
def listPrefix : List Char → List Char → Bool
  | [], _ => true
  | _ :: _, [] => false
  | a :: as, b :: bs => a == b && listPrefix as bs

/-- Contiguous-infix test on character lists (the empty needle always
matches, as in Python). -/
def listInfix : List Char → List Char → Bool
  | needle, [] => needle.isEmpty
  | needle, c :: r => listPrefix needle (c :: r) || listInfix needle r

/-- Python `needle in hay` on strings (substring test). -/
def pySubstrOf (needle hay : String) : Bool :=
  listInfix needle.data hay.data

--------------------------------------------------------------------
-- State: the `StorageState` dataclass, the two backing stores, and a
-- ghost write log.
--------------------------------------------------------------------

/-- Parse outcome standing for the raw bytes of a stored document. -/
inductive Raw where
  | malformed : Raw
  | wellFormed : Json → Raw

/-- The `StorageState` dataclass of `main.py`. The GCS handle fields
(`client`, `bucket`, `blob_r`) carry no observable data beyond being set
or `None`, so they are modelled as Booleans; `id_count` and `old_ids` are
dynamically typed in Python (they are overwritten by whatever the stored
`_meta` holds), hence `Json` here. -/
structure StorageState where
  clientSet : Bool := false
  bucket_name : Option String := none
  bucketSet : Bool := false
  blob_name : Option String := some "notes.json"
  blob_rSet : Bool := false
  id_count : Json := .num 0
  old_ids : Json := .arr []
  source : String := "online"

/-- Value of the `LOCAL_FILE` module constant (default, `LOCAL` unset). -/
def LOCAL_FILE : String := "local_notes.json"

/-- The mutable world: the global session, the local file (`none` =
absent), the remote blob's content, and the ghost log of whole-document
writes. -/
structure World where
  session : StorageState := {}
  localF : Option Raw := none
  remote : Raw := .malformed
  writes : List Json := []

/-- State-passing computation with Python-style exceptions. -/
def PyM (α : Type) := World → Except String α × World

/-- Computation returning a value, leaving the world unchanged. -/
def PyM.pure (a : α) : PyM α := fun w => (.ok a, w)

/-- Sequencing that propagates a raised exception but keeps all state
mutations made before the raise (Python globals survive an exception). -/
def PyM.bind (m : PyM α) (f : α → PyM β) : PyM β := fun w =>
  match m w with
  | (.ok a, w') => f a w'
  | (.error e, w') => (.error e, w')

instance : Monad PyM where
  pure := PyM.pure
  bind := PyM.bind

/-- Raise a Python exception. -/
def pyThrow (e : String) : PyM α := fun w => (.error e, w)

/-- Read the world. -/
def getW : PyM World := fun w => (.ok w, w)

/-- Replace the world. -/
def setW (w : World) : PyM Unit := fun _ => (.ok (), w)

/-- Update the world. -/
def modifyW (f : World → World) : PyM Unit := fun w => (.ok (), f w)

/-- Update the session inside the world. -/
def modifySession (f : StorageState → StorageState) : PyM Unit :=
  modifyW fun w => { w with session := f w.session }

--------------------------------------------------------------------
-- Python dynamic operations used by the source, with their exception
-- behavior on each runtime type.
--------------------------------------------------------------------

/-- Python `key in x` (`'_meta' not in notes`): dict key test, list
membership, substring test on strings; `TypeError` otherwise. -/
def pyContains (j : Json) (key : String) : PyM Bool :=
  match j with
  | .obj o => pure ((lookupKey o key).isSome)
  | .arr l => pure (l.any fun x => Json.beq x (.str key))
  | .str s => pure (pySubstrOf key s)
  | _ => pyThrow "TypeError: argument is not iterable"

/-- Python `x.get(key, default)`: only dicts have `.get`
(`AttributeError` otherwise); an absent key yields the default. -/
def pyGetD (j : Json) (key : String) (dflt : Json) : PyM Json :=
  match j with
  | .obj o => pure ((lookupKey o key).getD dflt)
  | _ => pyThrow "AttributeError: object has no attribute get"

/-- Python `x[key] = v` for a string key: only dicts support item
assignment here (`TypeError` otherwise). -/
def pySetItem (j : Json) (key : String) (v : Json) : PyM Json :=
  match j with
  | .obj o => pure (.obj (setKey o key v))
  | _ => pyThrow "TypeError: object does not support item assignment"

/-- Python `del x[key]` for a string key on a dict. -/
def pyDelItem (j : Json) (key : String) : PyM Json :=
  match j with
  | .obj o => pure (.obj (delKey o key))
  | _ => pyThrow "TypeError: object does not support item deletion"

/-- Python `len(x)`: sized types only (`TypeError` otherwise). -/
def pyLen (j : Json) : PyM Nat :=
  match j with
  | .arr l => pure l.length
  | .obj o => pure o.length
  | .str s => pure s.data.length
  | _ => pyThrow "TypeError: object has no len"

/-- Python `x[0]` (`state.old_ids[0]` in `generate_id`). -/
def pyIndex0 (j : Json) : PyM Json :=
  match j with
  | .arr (x :: _) => pure x
  | .arr [] => pyThrow "IndexError: list index out of range"
  | .str s =>
      match s.data with
      | c :: _ => pure (.str (String.mk [c]))
      | [] => pyThrow "IndexError: string index out of range"
  | _ => pyThrow "TypeError: object is not subscriptable"

/-- Python `del x[0]` (`del state.old_ids[0]` in `generate_id`). -/
def pyDel0 (j : Json) : PyM Json :=
  match j with
  | .arr (_ :: r) => pure (.arr r)
  | .arr [] => pyThrow "IndexError: list assignment index out of range"
  | _ => pyThrow "TypeError: object does not support item deletion"

/-- Python `x.append(v)` (`state.old_ids.append(...)` in `delete_note`). -/
def pyAppend (j v : Json) : PyM Json :=
  match j with
  | .arr l => pure (.arr (l ++ [v]))
  | _ => pyThrow "AttributeError: object has no attribute append"

/-- Python `x += 1` (`state.id_count += 1`): ints and bools add,
everything else raises `TypeError`. -/
def pyAdd1 (j : Json) : PyM Json :=
  match j with
  | .num n => pure (.num (n + 1))
  | .bool b => pure (.num ((cond b 1 0) + 1))
  | _ => pyThrow "TypeError: unsupported operand types"

/-- Python `int(s)` as an expression that raises `ValueError` on failure
(`int(id)` in `delete_note`). -/
def pyIntE (s : String) : PyM Int :=
  match pyInt s with
  | some n => pure n
  | none => pyThrow "ValueError: invalid literal for int"

--------------------------------------------------------------------
-- Error taxonomy (`ErrorCode` enum of main.py) and validation helpers.
--------------------------------------------------------------------

/-- The `ErrorCode` enum of `main.py`. -/
inductive ErrorCode where
  | INVALID_INPUT
  | NOT_FOUND
  | PERMISSION_DENIED
  | SERVER_ERROR
  | NOT_FOUND_USE_LOCAL
  | PERMISSION_DENIED_USE_LOCAL
  | SERVER_ERROR_USE_LOCAL
  | SETUP_REQUIRED
deriving DecidableEq

/-- Per-argument test of `check_string`: `isinstance(s, str)` and
nonempty after `strip()`. -/
def checkStringOne : Json → Bool
  | .str s => !(pyStripChars s.data).isEmpty
  | _ => false

/-- The `check_string(*args)` validator: empty argument tuple fails;
every argument must be a string that is nonempty after stripping. -/
def check_string (args : List Json) : Bool × Option ErrorCode :=
  if args.isEmpty then (false, some ErrorCode.INVALID_INPUT)
  else if args.all checkStringOne then (true, none)
  else (false, some ErrorCode.INVALID_INPUT)

/-- The `check_int_positive(*args)` validator. Its arguments here are
already `Int` (the callers pass the result of `int(...)`), so the
`isinstance(i, int)` test always passes; a negative argument fails. -/
def check_int_positive (args : List Int) : Bool × Option ErrorCode :=
  if args.isEmpty then (false, some ErrorCode.INVALID_INPUT)
  else if args.all fun i => decide (0 ≤ i) then (true, none)
  else (false, some ErrorCode.INVALID_INPUT)

/-- The `parse_id` validator: `None` is invalid, a string that `int()`
rejects is invalid, a negative value is invalid; otherwise `None`
(success). -/
def parse_id (id_val : Option String) : Option ErrorCode :=
  match id_val with
  | none => some ErrorCode.INVALID_INPUT
  | some s =>
      match pyInt s with
      | none => some ErrorCode.INVALID_INPUT
      | some i =>
          if (check_int_positive [i]).1 then none
          else some ErrorCode.INVALID_INPUT

--------------------------------------------------------------------
-- Storage helpers of main.py.
--------------------------------------------------------------------

/-- Python `Path(LOCAL_FILE).touch(exist_ok=True)`: creates an empty file
when absent (empty bytes are malformed JSON), leaves an existing file
untouched. -/
def touchLocal : PyM Unit :=
  modifyW fun w =>
    match w.localF with
    | none => { w with localF := some Raw.malformed }
    | some _ => w

/-- The `load_notes_local` helper: touch the file, then parse it; a
`JSONDecodeError` (malformed or empty file) resolves to an empty dict. -/
def load_notes_local : PyM Json := do
  touchLocal
  let w ← getW
  match w.localF with
  | some (Raw.wellFormed v) => pure v
  | _ => pure (Json.obj [])

/-- The `save_notes_local` helper: truncate and rewrite the whole local
file (the `indent=2` formatting of the bytes is not observable in the
parse-outcome abstraction). The ghost `writes` log records the write. -/
def save_notes_local (notes : Json) : PyM Unit :=
  modifyW fun w =>
    { w with localF := some (Raw.wellFormed notes), writes := w.writes ++ [notes] }

/-- The `load_notes` dispatcher: fail early with `RuntimeError` when
online without a bound blob/bucket; offline delegates to the local loader
with an `or \x7b\x7d` truthiness fallback; online parses the blob,
resolving `JSONDecodeError` to an empty dict. -/
def load_notes : PyM Json := do
  let w ← getW
  if w.session.source == "online" && (!w.session.blob_rSet || !w.session.bucketSet) then
    pyThrow "RuntimeError: Storage not initialized. Please run setup first."
  else if w.session.source == "offline" then do
    let v ← load_notes_local
    pure (pyOr v (Json.obj []))
  else if w.session.blob_rSet && (w.session.source == "online") then
    match w.remote with
    | Raw.malformed => pure (Json.obj [])
    | Raw.wellFormed v => pure v
  else
    pure (Json.obj [])

/-- The `save_notes` dispatcher: offline writes the local file, online
with a bound blob overwrites the blob; otherwise it silently does
nothing. -/
def save_notes (notes : Json) : PyM Unit := do
  let w ← getW
  if w.session.source == "offline" then
    save_notes_local notes
  else if w.session.blob_rSet && (w.session.source == "online") then
    modifyW fun w2 =>
      { w2 with remote := Raw.wellFormed notes, writes := w2.writes ++ [notes] }
  else
    pure ()

/-- The `setup_ensure_meta` bootstrap: touch the local file when offline,
load the active document; if it has no `_meta` key, inject a zeroed
`_meta` and save (without touching the in-memory counters); otherwise
copy the stored `id_count`/`old_ids` into the session. -/
def setup_ensure_meta : PyM Unit := do
  let w ← getW
  if w.session.source == "offline" && (LOCAL_FILE != "") then
    touchLocal
  else
    pure ()
  let notes ← load_notes
  let hasMeta ← pyContains notes "_meta"
  if !hasMeta then do
    let notes2 ← pySetItem notes "_meta"
      (Json.obj [("id_count", Json.num 0), ("old_ids", Json.arr [])])
    save_notes notes2
  else do
    let metas ← pyGetD notes "_meta" Json.null
    if !metas.isNull then do
      let ic ← pyGetD metas "id_count" (Json.num 0)
      let oi ← pyGetD metas "old_ids" (Json.arr [])
      modifySession fun s => { s with id_count := ic, old_ids := oi }
    else
      pure ()

/-- The `persist` helper: refresh `_meta` from the in-memory counters
inside the document, then save the whole document in one write. -/
def persist (notes : Json) : PyM Unit := do
  let w ← getW
  let notes2 ← pySetItem notes "_meta"
    (Json.obj [("id_count", w.session.id_count), ("old_ids", w.session.old_ids)])
  save_notes notes2

/-- The `hide_meta` helper: rebuild the dict keeping every entry except
`_meta` in order; iterating `.items()` of a non-dict raises. -/
def hide_meta (notes : Json) : PyM Json :=
  match notes with
  | .obj o => pure (.obj (o.filter fun kv => kv.1 != "_meta"))
  | _ => pyThrow "AttributeError: object has no attribute items"

/-- The `generate_id` allocator: pop the head of `old_ids` when nonempty,
else return the counter and increment it. -/
def generate_id : PyM Json := do
  let w ← getW
  let n ← pyLen w.session.old_ids
  if n != 0 then do
    let back ← pyIndex0 w.session.old_ids
    let rest ← pyDel0 w.session.old_ids
    modifySession fun s => { s with old_ids := rest }
    pure back
  else do
    let back := w.session.id_count
    let inc ← pyAdd1 back
    modifySession fun s => { s with id_count := inc }
    pure back

--------------------------------------------------------------------
-- The note operations and setup of main.py.
--------------------------------------------------------------------

/-- Body of `add_note` (before the `catch_errors_2` decorator): validate
the title, then the content, then the setup gate, then load, allocate an
id, insert under `str(id)` and persist. -/
def add_note_run (title content : Json) : PyM (Bool × Option ErrorCode) := do
  if !(check_string [title]).1 then
    pure (false, some ErrorCode.INVALID_INPUT)
  else if !(check_string [content]).1 then
    pure (false, some ErrorCode.INVALID_INPUT)
  else do
    let w ← getW
    if w.session.source == "offline" && w.localF.isNone then
      pure (false, some ErrorCode.SETUP_REQUIRED)
    else if w.session.source == "online" && (!w.session.blob_rSet || !w.session.bucketSet) then
      pure (false, some ErrorCode.SETUP_REQUIRED)
    else do
      let loaded ← load_notes
      let notes := pyOr loaded (Json.obj [])
      let id ← generate_id
      let notes2 ← pySetItem notes (pyStr id)
        (Json.obj [("title", title), ("content", content)])
      persist notes2
      pure (true, none)

/-- Body of `get_note` (before the `catch_errors_3` decorator): setup
gate, load, then either strip `_meta` (no id) or validate the id and look
it up literally. -/
def get_note_run (id : Option String) : PyM (Bool × Option ErrorCode × Option Json) := do
  let w ← getW
  if w.session.source == "offline" && w.localF.isNone then
    pure (false, some ErrorCode.SETUP_REQUIRED, none)
  else if w.session.source == "online" && (!w.session.blob_rSet || !w.session.bucketSet) then
    pure (false, some ErrorCode.SETUP_REQUIRED, none)
  else do
    let notes ← load_notes
    match id with
    | none => do
        let shown ← hide_meta notes
        pure (true, none, some shown)
    | some s =>
        if (parse_id (some s)).isSome then
          pure (false, some ErrorCode.INVALID_INPUT, none)
        else do
          let entry ← pyGetD notes s Json.null
          if entry.isNull then
            pure (false, some ErrorCode.NOT_FOUND, none)
          else
            pure (true, none, some entry)

/-- Body of `delete_note` (before the `catch_errors_2` decorator): setup
gate, id validation, load; an absent id is a silent success; a present id
is released into `old_ids`, removed and the document persisted. -/
def delete_note_run (id : Option String) : PyM (Bool × Option ErrorCode) := do
  let w ← getW
  if w.session.source == "offline" && w.localF.isNone then
    pure (false, some ErrorCode.SETUP_REQUIRED)
  else if w.session.source == "online" && (!w.session.blob_rSet || !w.session.bucketSet) then
    pure (false, some ErrorCode.SETUP_REQUIRED)
  else
    match id with
    | none => pure (false, some ErrorCode.INVALID_INPUT)
    | some s =>
        if (parse_id (some s)).isSome then
          pure (false, some ErrorCode.INVALID_INPUT)
        else do
          let loaded ← load_notes
          let notes := pyOr loaded (Json.obj [])
          let note ← pyGetD notes s Json.null
          if note.isNull then
            pure (true, none)
          else do
            let n ← pyIntE s
            let w2 ← getW
            let appended ← pyAppend w2.session.old_ids (Json.num n)
            modifySession fun st => { st with old_ids := appended }
            let notes2 ← pyDelItem notes s
            persist notes2
            pure (true, none)

/-- Outcome of the remote attempt inside `setup`'s `try` block: the
client/bucket/blob attach plus the existence probe either succeed
(reporting whether the blob already existed) or raise one of the three
distinguished exception kinds. -/
inductive RemoteSetup where
  | ok : Bool → RemoteSetup
  | notFound : RemoteSetup
  | forbidden : RemoteSetup
  | otherErr : RemoteSetup

/-- The `setup` transition. On success the remote handles are bound, a
missing blob is created holding an empty JSON object, the source becomes
online and the metadata bootstrap runs. Each handler clears the handles
(`bucket_name` keeps the attempted name except in the generic handler,
which resets it to the empty string), goes offline, runs the bootstrap
and returns its degraded-success code. `setup` is not wrapped by a catch
decorator, so an exception out of the bootstrap propagates (`Except.error`). -/
def setup_run (bucket_n : Option String) (env : RemoteSetup) : PyM (Bool × Option ErrorCode) := do
  match bucket_n with
  | none => pure (false, some ErrorCode.INVALID_INPUT)
  | some bn =>
    if !(check_string [Json.str bn]).1 then
      pure (false, some ErrorCode.INVALID_INPUT)
    else
      match env with
      | RemoteSetup.ok blobExists => do
          modifySession fun s =>
            { s with clientSet := true, bucket_name := some bn,
                     bucketSet := true, blob_rSet := true }
          if !blobExists then
            modifyW fun w =>
              { w with remote := Raw.wellFormed (Json.obj []),
                       writes := w.writes ++ [Json.obj []] }
          else
            pure ()
          modifySession fun s => { s with source := "online" }
          setup_ensure_meta
          pure (true, none)
      | RemoteSetup.notFound => do
          modifySession fun s =>
            { s with clientSet := false, bucket_name := some bn,
                     bucketSet := false, blob_rSet := false, source := "offline" }
          setup_ensure_meta
          pure (false, some ErrorCode.NOT_FOUND_USE_LOCAL)
      | RemoteSetup.forbidden => do
          modifySession fun s =>
            { s with clientSet := false, bucket_name := some bn,
                     bucketSet := false, blob_rSet := false, source := "offline" }
          setup_ensure_meta
          pure (false, some ErrorCode.PERMISSION_DENIED_USE_LOCAL)
      | RemoteSetup.otherErr => do
          modifySession fun s =>
            { s with clientSet := false, bucket_name := some "",
                     bucketSet := false, blob_rSet := false, source := "offline" }
          setup_ensure_meta
          pure (false, some ErrorCode.SERVER_ERROR_USE_LOCAL)

--------------------------------------------------------------------
-- The catch_errors decorators and the decorated entry points.
--------------------------------------------------------------------

/-- Error slot of a decorated result: a taxonomy code on the normal
paths, or `str(e)` of a caught exception. -/
inductive ResErr where
  | code : ErrorCode → ResErr
  | exc : String → ResErr
deriving DecidableEq

/-- The `catch_errors_2` decorator: a raised exception becomes
`(False, str(e))`; state mutations made before the raise survive. -/
def catch2 (m : PyM (Bool × Option ErrorCode)) : World → (Bool × Option ResErr) × World :=
  fun w =>
    match m w with
    | (Except.ok (b, c), w2) => ((b, c.map ResErr.code), w2)
    | (Except.error e, w2) => ((false, some (ResErr.exc e)), w2)

/-- The `catch_errors_3` decorator: a raised exception becomes
`(False, str(e), None)`. -/
def catch3 (m : PyM (Bool × Option ErrorCode × Option Json)) :
    World → (Bool × Option ResErr × Option Json) × World :=
  fun w =>
    match m w with
    | (Except.ok (b, c, d), w2) => ((b, c.map ResErr.code, d), w2)
    | (Except.error e, w2) => ((false, some (ResErr.exc e), none), w2)

/-- The decorated `add_note` as imported by the HTTP layer. -/
def add_note (title content : Json) : World → (Bool × Option ResErr) × World :=
  catch2 (add_note_run title content)

/-- The decorated `get_note` as imported by the HTTP layer. -/
def get_note (id : Option String) : World → (Bool × Option ResErr × Option Json) × World :=
  catch3 (get_note_run id)

/-- The decorated `delete_note` as imported by the HTTP layer. -/
def delete_note (id : Option String) : World → (Bool × Option ResErr) × World :=
  catch2 (delete_note_run id)

/-- The undecorated `setup` as imported by the HTTP layer (an exception
escaping it surfaces as `Except.error`). -/
def setup (bucket_n : Option String) (env : RemoteSetup) :
    World → Except String (Bool × Option ErrorCode) × World :=
  setup_run bucket_n env

--------------------------------------------------------------------
-- Derived observers used to state the claims.
--------------------------------------------------------------------

/-- Decoded content of the active backend's document: the local file when
offline (`none` when the file is absent), else the remote blob;
malformed bytes decode to the empty document as in `load_notes`. -/
def World.activeDoc (w : World) : Option Json :=
  if w.session.source == "offline" then
    match w.localF with
    | none => none
    | some Raw.malformed => some (Json.obj [])
    | some (Raw.wellFormed v) => some v
  else
    match w.remote with
    | Raw.malformed => some (Json.obj [])
    | Raw.wellFormed v => some v

/-- The `_meta` value that `persist` derives from a session. -/
def metaJson (s : StorageState) : Json :=
  Json.obj [("id_count", s.id_count), ("old_ids", s.old_ids)]

/-- The in-memory counters agree with the `id_count` and `old_ids` fields
of the `_meta` entry persisted in the active backend's document. -/
def metaConsistent (w : World) : Prop :=
  ∃ d m, w.activeDoc = some (Json.obj d) ∧
    lookupKey d "_meta" = some (Json.obj m) ∧
    lookupKey m "id_count" = some w.session.id_count ∧
    lookupKey m "old_ids" = some w.session.old_ids

--------------------------------------------------------------------
-- Unfolding lemmas for the state-passing monad (proof machinery).
--------------------------------------------------------------------

/-- Decoded value of raw stored bytes, as the loaders see them. -/
def decodeRaw : Raw → Json
  | Raw.malformed => Json.obj []
  | Raw.wellFormed v => v

@[simp] theorem PyM.pure_apply (a : α) (w : World) :
    (PyM.pure a : PyM α) w = (Except.ok a, w) := rfl

@[simp] theorem pyThrow_apply (e : String) (w : World) :
    (pyThrow e : PyM α) w = (Except.error e, w) := rfl

@[simp] theorem getW_apply (w : World) : getW w = (Except.ok w, w) := rfl

@[simp] theorem setW_apply (w v : World) : setW v w = (Except.ok (), v) := rfl

@[simp] theorem modifyW_apply (f : World → World) (w : World) :
    modifyW f w = (Except.ok (), f w) := rfl

@[simp] theorem modifySession_apply (f : StorageState → StorageState) (w : World) :
    modifySession f w = (Except.ok (), { w with session := f w.session }) := rfl

@[simp] theorem bind_eq (m : PyM α) (f : α → PyM β) : (m >>= f) = PyM.bind m f := rfl

@[simp] theorem pure_eq (a : α) : (pure a : PyM α) = PyM.pure a := rfl

@[simp] theorem PyM.bind_apply (m : PyM α) (f : α → PyM β) (w : World) :
    PyM.bind m f w =
      match m w with
      | (Except.ok a, w2) => f a w2
      | (Except.error e, w2) => (Except.error e, w2) := rfl

/-- The active backend is usable: offline with an existing local file, or
online with bound blob and bucket (the state every completed `setup`
leaves behind). -/
def backendReady (w : World) : Prop :=
  (w.session.source = "offline" ∧ ∃ r, w.localF = some r) ∨
  (w.session.source = "online" ∧ w.session.blob_rSet = true ∧ w.session.bucketSet = true)

/-- The document value `load_notes` returns on a ready backend. -/
def loadedDoc (w : World) : Json :=
  if w.session.source == "offline" then
    match w.localF with
    | some r => pyOr (decodeRaw r) (Json.obj [])
    | none => Json.obj []
  else decodeRaw w.remote

/-- World after `save_notes` overwrites the active backend with `notes`. -/
def writeDoc (w : World) (notes : Json) : World :=
  if w.session.source == "offline" then
    { w with localF := some (Raw.wellFormed notes), writes := w.writes ++ [notes] }
  else
    { w with remote := Raw.wellFormed notes, writes := w.writes ++ [notes] }

theorem pyOr_obj (o : List (String × Json)) :
    pyOr (Json.obj o) (Json.obj []) = Json.obj o := by
  cases o <;> simp [pyOr, truthy]

theorem load_notes_ready (w : World) (hb : backendReady w) :
    load_notes w = (Except.ok (loadedDoc w), w) := by
  rcases hb with ⟨hs, r, hf⟩ | ⟨hs, hblob, hbuck⟩
  · simp [load_notes, loadedDoc, hs, hf, load_notes_local, touchLocal, decodeRaw]
    cases r <;> simp [decodeRaw, pyOr]
  · simp [load_notes, loadedDoc, hs, hblob, hbuck, decodeRaw]
    cases w.remote <;> simp [decodeRaw]

theorem save_notes_ready (w : World) (notes : Json) (hb : backendReady w) :
    save_notes notes w = (Except.ok (), writeDoc w notes) := by
  rcases hb with ⟨hs, r, hf⟩ | ⟨hs, hblob, hbuck⟩
  · simp [save_notes, writeDoc, hs, save_notes_local]
  · simp [save_notes, writeDoc, hs, hblob, hbuck]

theorem persist_ready (w : World) (o : List (String × Json)) (hb : backendReady w) :
    persist (Json.obj o) w =
      (Except.ok (), writeDoc w (Json.obj (setKey o "_meta" (metaJson w.session)))) := by
  simp [persist, pySetItem, metaJson, save_notes_ready w _ hb]

theorem generate_id_pop (w : World) (x : Json) (rest : List Json)
    (h : w.session.old_ids = Json.arr (x :: rest)) :
    generate_id w =
      (Except.ok x, { w with session := { w.session with old_ids := Json.arr rest } }) := by
  simp [generate_id, h, pyLen, pyIndex0, pyDel0]

theorem generate_id_fresh (w : World) (n : Int)
    (h : w.session.old_ids = Json.arr [])
    (hc : w.session.id_count = Json.num n) :
    generate_id w =
      (Except.ok (Json.num n),
       { w with session := { w.session with id_count := Json.num (n + 1) } }) := by
  simp [generate_id, h, hc, pyLen, pyAdd1]

theorem check_string_single (t : Json) (ht : checkStringOne t = true) :
    (check_string [t]).1 = true := by
  simp [check_string, ht]

theorem parse_id_ok (s : String) (n : Int) (hp : pyInt s = some n) (hn : 0 ≤ n) :
    parse_id (some s) = none := by
  simp [parse_id, hp, check_int_positive, hn]

/-- Setup has not completed: offline without a local file, or online
without a bound blob or bucket (the gate tested by every note op). -/
def preSetup (w : World) : Prop :=
  (w.session.source = "offline" ∧ w.localF = none) ∨
  (w.session.source = "online" ∧ (w.session.blob_rSet = false ∨ w.session.bucketSet = false))

theorem get_note_run_presetup (w : World) (id : Option String) (h : preSetup w) :
    get_note_run id w = (Except.ok (false, some ErrorCode.SETUP_REQUIRED, none), w) := by
  rcases h with ⟨hs, hf⟩ | ⟨hs, hbb⟩
  · simp [get_note_run, hs, hf]
  · rcases hbb with hbb | hbb <;> simp [get_note_run, hs, hbb]

theorem delete_note_run_presetup (w : World) (id : Option String) (h : preSetup w) :
    delete_note_run id w = (Except.ok (false, some ErrorCode.SETUP_REQUIRED), w) := by
  rcases h with ⟨hs, hf⟩ | ⟨hs, hbb⟩
  · simp [delete_note_run, hs, hf]
  · rcases hbb with hbb | hbb <;> simp [delete_note_run, hs, hbb]

theorem add_note_run_presetup (w : World) (t c : Json) (h : preSetup w)
    (ht : checkStringOne t = true) (hcs : checkStringOne c = true) :
    add_note_run t c w = (Except.ok (false, some ErrorCode.SETUP_REQUIRED), w) := by
  rcases h with ⟨hs, hf⟩ | ⟨hs, hbb⟩
  · simp [add_note_run, check_string_single _ ht, check_string_single _ hcs, hs, hf]
  · rcases hbb with hbb | hbb <;>
      simp [add_note_run, check_string_single _ ht, check_string_single _ hcs, hs, hbb]

theorem add_note_run_spec (w : World) (t c idv : Json) (o : List (String × Json))
    (sg : StorageState)
    (ht : checkStringOne t = true) (hcs : checkStringOne c = true)
    (hb : backendReady w)
    (ho : loadedDoc w = Json.obj o)
    (hg : generate_id w = (Except.ok idv, { w with session := sg }))
    (hbg : backendReady { w with session := sg }) :
    add_note_run t c w =
      (Except.ok (true, none),
       writeDoc { w with session := sg }
         (Json.obj (setKey (setKey o (pyStr idv)
            (Json.obj [("title", t), ("content", c)])) "_meta" (metaJson sg)))) := by
  have hload := load_notes_ready w hb
  have hpers := persist_ready { w with session := sg }
    (setKey o (pyStr idv) (Json.obj [("title", t), ("content", c)])) hbg
  rcases hb with ⟨hs, r, hf⟩ | ⟨hs, hblob, hbuck⟩
  · simp only [hf] at hpers ⊢
    simp [add_note_run, check_string_single _ ht, check_string_single _ hcs, hs, hf,
      hload, ho, pyOr_obj, hg, pySetItem, hpers]
  · simp [add_note_run, check_string_single _ ht, check_string_single _ hcs, hs, hblob,
      hbuck, hload, ho, pyOr_obj, hg, pySetItem, hpers]

theorem get_note_run_all (w : World) (o : List (String × Json))
    (hb : backendReady w) (ho : loadedDoc w = Json.obj o) :
    get_note_run none w =
      (Except.ok (true, none, some (Json.obj (o.filter fun kv => kv.1 != "_meta"))), w) := by
  have hload := load_notes_ready w hb
  rcases hb with ⟨hs, r, hf⟩ | ⟨hs, hblob, hbuck⟩
  · simp [get_note_run, hs, hf, hload, ho, hide_meta]
  · simp [get_note_run, hs, hblob, hbuck, hload, ho, hide_meta]

theorem get_note_run_found (w : World) (s : String) (o : List (String × Json))
    (n : Int) (v : Json)
    (hb : backendReady w) (ho : loadedDoc w = Json.obj o)
    (hp : pyInt s = some n) (hn : 0 ≤ n)
    (hfound : lookupKey o s = some v) (hv : v.isNull = false) :
    get_note_run (some s) w = (Except.ok (true, none, some v), w) := by
  have hload := load_notes_ready w hb
  rcases hb with ⟨hs, r, hf⟩ | ⟨hs, hblob, hbuck⟩
  · simp [get_note_run, hs, hf, hload, ho, parse_id_ok s n hp hn, pyGetD, hfound, hv]
  · simp [get_note_run, hs, hblob, hbuck, hload, ho, parse_id_ok s n hp hn, pyGetD,
      hfound, hv]

theorem get_note_run_absent (w : World) (s : String) (o : List (String × Json)) (n : Int)
    (hb : backendReady w) (ho : loadedDoc w = Json.obj o)
    (hp : pyInt s = some n) (hn : 0 ≤ n)
    (habs : ((lookupKey o s).getD Json.null).isNull = true) :
    get_note_run (some s) w = (Except.ok (false, some ErrorCode.NOT_FOUND, none), w) := by
  have hload := load_notes_ready w hb
  rcases hb with ⟨hs, r, hf⟩ | ⟨hs, hblob, hbuck⟩
  · simp [get_note_run, hs, hf, hload, ho, parse_id_ok s n hp hn, pyGetD, habs]
  · simp [get_note_run, hs, hblob, hbuck, hload, ho, parse_id_ok s n hp hn, pyGetD, habs]

theorem delete_note_run_absent (w : World) (s : String) (o : List (String × Json)) (n : Int)
    (hb : backendReady w) (ho : loadedDoc w = Json.obj o)
    (hp : pyInt s = some n) (hn : 0 ≤ n)
    (habs : ((lookupKey o s).getD Json.null).isNull = true) :
    delete_note_run (some s) w = (Except.ok (true, none), w) := by
  have hload := load_notes_ready w hb
  rcases hb with ⟨hs, r, hf⟩ | ⟨hs, hblob, hbuck⟩
  · simp [delete_note_run, hs, hf, hload, ho, pyOr_obj, parse_id_ok s n hp hn, pyGetD, habs]
  · simp [delete_note_run, hs, hblob, hbuck, hload, ho, pyOr_obj, parse_id_ok s n hp hn,
      pyGetD, habs]

theorem delete_note_run_present (w : World) (s : String) (o : List (String × Json))
    (n : Int) (l : List Json) (v : Json)
    (hb : backendReady w) (ho : loadedDoc w = Json.obj o)
    (hp : pyInt s = some n) (hn : 0 ≤ n)
    (hfound : lookupKey o s = some v) (hv : v.isNull = false)
    (hold : w.session.old_ids = Json.arr l) :
    delete_note_run (some s) w =
      (Except.ok (true, none),
       writeDoc { w with session := { w.session with old_ids := Json.arr (l ++ [Json.num n]) } }
         (Json.obj (setKey (delKey o s) "_meta"
           (metaJson { w.session with old_ids := Json.arr (l ++ [Json.num n]) })))) := by
  have hload := load_notes_ready w hb
  have hbg : backendReady
      { w with session := { w.session with old_ids := Json.arr (l ++ [Json.num n]) } } := by
    rcases hb with ⟨hs, r, hf⟩ | ⟨hs, h1, h2⟩
    · exact Or.inl ⟨hs, r, hf⟩
    · exact Or.inr ⟨hs, h1, h2⟩
  have hpers := persist_ready
    { w with session := { w.session with old_ids := Json.arr (l ++ [Json.num n]) } }
    (delKey o s) hbg
  rcases hb with ⟨hs, r, hf⟩ | ⟨hs, hblob, hbuck⟩
  · simp only [hs, hf] at hpers ⊢
    simp [delete_note_run, hs, hf, hload, ho, pyOr_obj, parse_id_ok s n hp hn, pyGetD,
      hfound, hv, pyIntE, hp, pyAppend, hold, pyDelItem, hpers]
  · simp only [hs, hblob, hbuck] at hpers ⊢
    simp [delete_note_run, hs, hblob, hbuck, hload, ho, pyOr_obj, parse_id_ok s n hp hn,
      pyGetD, hfound, hv, pyIntE, hp, pyAppend, hold, pyDelItem, hpers]

/-- World after the `touch` at the top of `setup_ensure_meta` (offline
creates the local file when absent; online leaves the world alone). -/
def touchedW (w : World) : World :=
  if w.session.source == "offline" then
    match w.localF with
    | none => { w with localF := some Raw.malformed }
    | some _ => w
  else w

/-- `_meta` payload `setup_ensure_meta` injects into a document that
lacks one. -/
def zeroMeta : Json :=
  Json.obj [("id_count", Json.num 0), ("old_ids", Json.arr [])]

theorem setup_ensure_meta_loads (w : World) (o m : List (String × Json))
    (hb : backendReady (touchedW w))
    (ho : loadedDoc (touchedW w) = Json.obj o)
    (hm : lookupKey o "_meta" = some (Json.obj m)) :
    setup_ensure_meta w =
      (Except.ok (),
       { touchedW w with session := { (touchedW w).session with
           id_count := (lookupKey m "id_count").getD (Json.num 0),
           old_ids := (lookupKey m "old_ids").getD (Json.arr []) } }) := by
  have hload := load_notes_ready (touchedW w) hb
  by_cases hs : w.session.source = "offline"
  · cases hlf : w.localF with
    | none =>
        have htw : touchedW w = { w with localF := some Raw.malformed } := by
          simp [touchedW, hs, hlf]
        rw [htw] at hload ho ⊢
        simp [setup_ensure_meta, hs, hlf, LOCAL_FILE, touchLocal, hload, ho, pyContains,
          hm, pyGetD, Json.isNull]
    | some r =>
        have htw : touchedW w = w := by simp [touchedW, hs, hlf]
        rw [htw] at hload ho ⊢
        simp [setup_ensure_meta, hs, hlf, LOCAL_FILE, touchLocal, hload, ho, pyContains,
          hm, pyGetD, Json.isNull]
  · have htw : touchedW w = w := by simp [touchedW, hs]
    rw [htw] at hload ho ⊢
    simp [setup_ensure_meta, hs, hload, ho, pyContains, hm, pyGetD, Json.isNull]

theorem setup_ensure_meta_zero (w : World) (o : List (String × Json))
    (hb : backendReady (touchedW w))
    (ho : loadedDoc (touchedW w) = Json.obj o)
    (hm : lookupKey o "_meta" = none) :
    setup_ensure_meta w =
      (Except.ok (), writeDoc (touchedW w) (Json.obj (setKey o "_meta" zeroMeta))) := by
  have hload := load_notes_ready (touchedW w) hb
  have hsave := save_notes_ready (touchedW w) (Json.obj (setKey o "_meta" zeroMeta)) hb
  simp only [zeroMeta] at hsave
  by_cases hs : w.session.source = "offline"
  · cases hlf : w.localF with
    | none =>
        have htw : touchedW w = { w with localF := some Raw.malformed } := by
          simp [touchedW, hs, hlf]
        rw [htw] at hload hsave ho ⊢
        simp [setup_ensure_meta, hs, hlf, LOCAL_FILE, touchLocal, hload, ho, pyContains,
          hm, pySetItem, zeroMeta, hsave]
    | some r =>
        have htw : touchedW w = w := by simp [touchedW, hs, hlf]
        rw [htw] at hload hsave ho ⊢
        simp [setup_ensure_meta, hs, hlf, LOCAL_FILE, touchLocal, hload, ho, pyContains,
          hm, pySetItem, zeroMeta, hsave]
  · have htw : touchedW w = w := by simp [touchedW, hs]
    rw [htw] at hload hsave ho ⊢
    simp [setup_ensure_meta, hs, hload, ho, pyContains, hm, pySetItem, zeroMeta, hsave]


theorem lookupKey_setKey_self (o : List (String × Json)) (k : String) (v : Json) :
    lookupKey (setKey o k v) k = some v := by
  induction o with
  | nil => simp [setKey, lookupKey]
  | cons kv r ih =>
      by_cases h : kv.1 = k
      · cases kv; simp_all [setKey, lookupKey]
      · cases kv; simp_all [setKey, lookupKey]

theorem lookupKey_setKey_ne (o : List (String × Json)) (k k2 : String) (v : Json)
    (h : k2 ≠ k) : lookupKey (setKey o k v) k2 = lookupKey o k2 := by
  have h2 : ¬ k = k2 := fun hk => h hk.symm
  induction o with
  | nil => simp [setKey, lookupKey, h2]
  | cons kv r ih =>
      by_cases hh : kv.1 = k
      · cases kv; simp_all [setKey, lookupKey, h2]
      · cases kv; simp_all [setKey, lookupKey]

theorem lookupKey_filter_ne (o : List (String × Json)) (k : String) :
    lookupKey (o.filter fun kv => kv.1 != k) k = none := by
  induction o with
  | nil => rfl
  | cons kv r ih =>
      by_cases h : kv.1 = k <;> simp [List.filter_cons, h, lookupKey, ih]

theorem activeDoc_writeDoc (w : World) (notes : Json) :
    (writeDoc w notes).activeDoc = some notes := by
  by_cases hs : w.session.source = "offline" <;>
    simp [writeDoc, World.activeDoc, hs]

theorem writeDoc_session (w : World) (notes : Json) :
    (writeDoc w notes).session = w.session := by
  by_cases hs : w.session.source = "offline" <;> simp [writeDoc, hs]

theorem metaConsistent_writeDoc (w : World) (x : List (String × Json)) :
    metaConsistent (writeDoc w (Json.obj (setKey x "_meta" (metaJson w.session)))) := by
  refine ⟨setKey x "_meta" (metaJson w.session),
    [("id_count", w.session.id_count), ("old_ids", w.session.old_ids)],
    activeDoc_writeDoc w _, ?_, ?_, ?_⟩
  · rw [lookupKey_setKey_self]; rfl
  · rw [writeDoc_session]; rfl
  · rw [writeDoc_session]; simp [lookupKey]

theorem loadedDoc_of_activeDoc (w : World) (o : List (String × Json))
    (hb : backendReady w) (ha : w.activeDoc = some (Json.obj o)) :
    loadedDoc w = Json.obj o := by
  rcases hb with ⟨hs, r, hf⟩ | ⟨hs, hblob, hbuck⟩
  · cases r with
    | malformed =>
        simp [World.activeDoc, hs, hf] at ha
        simp [loadedDoc, hs, hf, decodeRaw, pyOr_obj, ha]
    | wellFormed v =>
        simp [World.activeDoc, hs, hf] at ha
        simp [loadedDoc, hs, hf, decodeRaw, ha, pyOr_obj]
  · cases hr : w.remote with
    | malformed =>
        simp [World.activeDoc, hs, hr] at ha
        simp [loadedDoc, hs, hr, decodeRaw, ha]
    | wellFormed v =>
        simp [World.activeDoc, hs, hr] at ha
        simp [loadedDoc, hs, hr, decodeRaw, ha]


/-- Offline world holding notes "3" and "5" with a persisted meta of
`id_count = 6`, `old_ids = []`: the starting point of the FIFO scenario. -/
def fifoDoc : Json := Json.obj
  [("_meta", Json.obj [("id_count", Json.num 6), ("old_ids", Json.arr [])]),
   ("3", Json.obj [("title", Json.str "a"), ("content", Json.str "b")]),
   ("5", Json.obj [("title", Json.str "c"), ("content", Json.str "d")])]

/-- Session bound to the local backend over `fifoDoc`. -/
def fifoW : World :=
  { session := { id_count := Json.num 6, old_ids := Json.arr [], source := "offline" },
    localF := some (Raw.wellFormed fifoDoc) }

/-- World after `delete("3")` on `fifoW`. -/
def fifoW1 : World := (delete_note (some "3") fifoW).2

/-- World after `delete("5")` on `fifoW1`. -/
def fifoW2 : World := (delete_note (some "5") fifoW1).2

/-- World after the first `add` on `fifoW2`. -/
def fifoW3 : World := (add_note (Json.str "t1") (Json.str "c1") fifoW2).2

/-- World after the second `add` on `fifoW3`. -/
def fifoW4 : World := (add_note (Json.str "t2") (Json.str "c2") fifoW3).2

/-- C3: id allocation reuses recycled ids in FIFO order: with a nonempty
recycle queue the allocator pops and returns its head; with an empty
queue it returns the counter and increments it; `delete` appends the
released id at the tail; and deleting ids 3 then 5 followed by two adds
assigns ids 3 then 5, in that order. -/
theorem C3_fifo_id_reuse :
    (∀ (w : World) (x : Json) (rest : List Json),
        w.session.old_ids = Json.arr (x :: rest) →
        generate_id w = (Except.ok x,
          { w with session := { w.session with old_ids := Json.arr rest } })) ∧
    (∀ (w : World) (n : Int),
        w.session.old_ids = Json.arr [] →
        w.session.id_count = Json.num n →
        generate_id w = (Except.ok (Json.num n),
          { w with session := { w.session with id_count := Json.num (n + 1) } })) ∧
    (∀ (w : World) (s : String) (o : List (String × Json)) (n : Int)
        (l : List Json) (v : Json),
        backendReady w → loadedDoc w = Json.obj o →
        pyInt s = some n → 0 ≤ n →
        lookupKey o s = some v → v.isNull = false →
        w.session.old_ids = Json.arr l →
        (delete_note (some s) w).1 = (true, none) ∧
        ((delete_note (some s) w).2).session.old_ids = Json.arr (l ++ [Json.num n])) ∧
    ((delete_note (some "3") fifoW).1 = (true, none) ∧
     (delete_note (some "5") fifoW1).1 = (true, none) ∧
     fifoW2.session.old_ids = Json.arr [Json.num 3, Json.num 5] ∧
     (add_note (Json.str "t1") (Json.str "c1") fifoW2).1 = (true, none) ∧
     fifoW3.session.old_ids = Json.arr [Json.num 5] ∧
     (∃ d, fifoW3.activeDoc = some (Json.obj d) ∧
        lookupKey d "3" =
          some (Json.obj [("title", Json.str "t1"), ("content", Json.str "c1")]) ∧
        lookupKey d "5" = none) ∧
     (add_note (Json.str "t2") (Json.str "c2") fifoW3).1 = (true, none) ∧
     fifoW4.session.old_ids = Json.arr [] ∧
     (∃ d, fifoW4.activeDoc = some (Json.obj d) ∧
        lookupKey d "5" =
          some (Json.obj [("title", Json.str "t2"), ("content", Json.str "c2")]))) := by
  refine ⟨generate_id_pop, generate_id_fresh, ?_, ?_⟩
  · intro w s o n l v hb ho hp hn hfound hv hold
    have hrun := delete_note_run_present w s o n l v hb ho hp hn hfound hv hold
    constructor
    · simp [delete_note, catch2, hrun]
    · simp [delete_note, catch2, hrun, writeDoc_session]
  · exact ⟨rfl, rfl, rfl, rfl, rfl, ⟨_, rfl, rfl, rfl⟩, rfl, rfl, ⟨_, rfl, rfl⟩⟩

/-- Witness for C3: the FIFO pop clause evaluated on the scenario world
whose recycle queue is `[3, 5]`. -/
theorem C3_fifo_id_reuse_witness :
    generate_id fifoW2 = (Except.ok (Json.num 3),
      { fifoW2 with session := { fifoW2.session with old_ids := Json.arr [Json.num 5] } }) :=
  C3_fifo_id_reuse.1 fifoW2 (Json.num 3) [Json.num 5] (by rfl)


/-- C5: deleting a valid-format id that is absent from the stored
document is a silent success that changes nothing at all; a second
identical delete succeeds identically. -/
theorem C5_idempotent_delete :
    ∀ (w : World) (s : String) (o : List (String × Json)) (n : Int),
      backendReady w → loadedDoc w = Json.obj o →
      pyInt s = some n → 0 ≤ n →
      lookupKey o s = none →
      delete_note (some s) w = ((true, none), w) ∧
      delete_note (some s) ((delete_note (some s) w).2) = ((true, none), w) := by
  intro w s o n hb ho hp hn habs
  have habs2 : ((lookupKey o s).getD Json.null).isNull = true := by
    simp [habs, Json.isNull]
  have hrun := delete_note_run_absent w s o n hb ho hp hn habs2
  have h1 : delete_note (some s) w = ((true, none), w) := by
    simp [delete_note, catch2, hrun]
  exact ⟨h1, by simp [h1]⟩

/-- Witness for C5: deleting the absent id "7" from the FIFO scenario
world twice. -/
theorem C5_idempotent_delete_witness :
    delete_note (some "7") fifoW = ((true, none), fifoW) ∧
    delete_note (some "7") ((delete_note (some "7") fifoW).2) = ((true, none), fifoW) :=
  C5_idempotent_delete fifoW "7"
    [("_meta", Json.obj [("id_count", Json.num 6), ("old_ids", Json.arr [])]),
     ("3", Json.obj [("title", Json.str "a"), ("content", Json.str "b")]),
     ("5", Json.obj [("title", Json.str "c"), ("content", Json.str "d")])] 7
    (Or.inl ⟨rfl, Raw.wellFormed fifoDoc, rfl⟩) (by rfl) (by rfl) (by decide) (by rfl)

/-- World after a degraded `setup` on a fresh machine: the bootstrap has
just persisted a zeroed `_meta` to the local file. -/
def bootW : World := (setup (some "b") RemoteSetup.notFound {}).2

/-- C6: the full-document read strips `_meta`: `hide_meta` filters the
key out of any document, `get` with no id returns the filtered document
(never containing a `_meta` key), also immediately after the bootstrap
has persisted one. -/
theorem C6_meta_hidden :
    (∀ (notes : List (String × Json)),
        hide_meta (Json.obj notes) =
          PyM.pure (Json.obj (notes.filter fun kv => kv.1 != "_meta")) ∧
        lookupKey (notes.filter fun kv => kv.1 != "_meta") "_meta" = none) ∧
    (∀ (w : World) (o : List (String × Json)),
        backendReady w → loadedDoc w = Json.obj o →
        get_note none w =
          ((true, none, some (Json.obj (o.filter fun kv => kv.1 != "_meta"))), w) ∧
        lookupKey (o.filter fun kv => kv.1 != "_meta") "_meta" = none) ∧
    (bootW.activeDoc = some (Json.obj [("_meta", zeroMeta)]) ∧
     (get_note none bootW).1 = (true, none, some (Json.obj []))) := by
  refine ⟨fun notes => ⟨rfl, lookupKey_filter_ne notes "_meta"⟩, ?_, rfl, rfl⟩
  intro w o hb ho
  have hrun := get_note_run_all w o hb ho
  exact ⟨by simp [get_note, catch3, hrun], lookupKey_filter_ne o "_meta"⟩

/-- Witness for C6: the get-all clause evaluated on the FIFO scenario
world, whose document holds a `_meta` entry and two notes. -/
theorem C6_meta_hidden_witness :
    get_note none fifoW =
      ((true, none, some (Json.obj
        [("3", Json.obj [("title", Json.str "a"), ("content", Json.str "b")]),
         ("5", Json.obj [("title", Json.str "c"), ("content", Json.str "d")])])), fifoW) ∧
    lookupKey
      ([("_meta", Json.obj [("id_count", Json.num 6), ("old_ids", Json.arr [])]),
        ("3", Json.obj [("title", Json.str "a"), ("content", Json.str "b")]),
        ("5", Json.obj [("title", Json.str "c"), ("content", Json.str "d")])].filter
          fun kv => kv.1 != "_meta") "_meta" = none := by
  have h := C6_meta_hidden.2.1 fifoW
    [("_meta", Json.obj [("id_count", Json.num 6), ("old_ids", Json.arr [])]),
     ("3", Json.obj [("title", Json.str "a"), ("content", Json.str "b")]),
     ("5", Json.obj [("title", Json.str "c"), ("content", Json.str "d")])]
    (Or.inl ⟨rfl, Raw.wellFormed fifoDoc, rfl⟩) (by rfl)
  exact ⟨by simpa using h.1, h.2⟩


/-- Offline world storing a note under the canonical key "7", used to
exhibit the literal-key lookup of non-canonical id strings. -/
def canonW : World :=
  { session := { id_count := Json.num 8, old_ids := Json.arr [], source := "offline" },
    localF := some (Raw.wellFormed (Json.obj
      [("_meta", Json.obj [("id_count", Json.num 8), ("old_ids", Json.arr [])]),
       ("7", Json.obj [("title", Json.str "x"), ("content", Json.str "y")])])) }

/-- C9: `get`/`delete` look the id string up literally as the document
key while `add` stores the canonical decimal string of the allocated id,
so a validly-parsing but non-canonical id string misses a note stored
under its canonical key: get answers NotFound and delete is a no-op
success. -/
theorem C9_literal_key_lookup :
    (∀ (w : World) (s : String) (o : List (String × Json)) (n : Int) (v : Json),
        backendReady w → loadedDoc w = Json.obj o →
        pyInt s = some n → 0 ≤ n →
        lookupKey o s = none →
        lookupKey o (toString n) = some v →
        get_note (some s) w = ((false, some (ResErr.code ErrorCode.NOT_FOUND), none), w) ∧
        delete_note (some s) w = ((true, none), w)) ∧
    (∀ (w : World) (t c : Json) (o : List (String × Json)) (n : Int),
        checkStringOne t = true → checkStringOne c = true →
        backendReady w → loadedDoc w = Json.obj o →
        w.session.old_ids = Json.arr [] → w.session.id_count = Json.num n →
        add_note t c w = ((true, none),
          writeDoc { w with session := { w.session with id_count := Json.num (n + 1) } }
            (Json.obj (setKey (setKey o (toString n)
               (Json.obj [("title", t), ("content", c)])) "_meta"
               (metaJson { w.session with id_count := Json.num (n + 1) }))))) := by
  constructor
  · intro w s o n v hb ho hp hn habs hcanon
    have habs2 : ((lookupKey o s).getD Json.null).isNull = true := by
      simp [habs, Json.isNull]
    have hget := get_note_run_absent w s o n hb ho hp hn habs2
    have hdel := delete_note_run_absent w s o n hb ho hp hn habs2
    exact ⟨by simp [get_note, catch3, hget], by simp [delete_note, catch2, hdel]⟩
  · intro w t c o n ht hcs hb ho hold hcount
    have hg := generate_id_fresh w n hold hcount
    have hbg : backendReady
        { w with session := { w.session with id_count := Json.num (n + 1) } } := by
      rcases hb with ⟨hs, r, hf⟩ | ⟨hs, h1, h2⟩
      · exact Or.inl ⟨hs, r, hf⟩
      · exact Or.inr ⟨hs, h1, h2⟩
    have hrun := add_note_run_spec w t c (Json.num n) o _ ht hcs hb ho hg hbg
    simp [add_note, catch2, hrun, pyStr]

/-- Witness for C9: querying "007" (which parses to 7) misses the note
stored under "7". -/
theorem C9_literal_key_lookup_witness :
    get_note (some "007") canonW =
      ((false, some (ResErr.code ErrorCode.NOT_FOUND), none), canonW) ∧
    delete_note (some "007") canonW = ((true, none), canonW) :=
  C9_literal_key_lookup.1 canonW "007"
    [("_meta", Json.obj [("id_count", Json.num 8), ("old_ids", Json.arr [])]),
     ("7", Json.obj [("title", Json.str "x"), ("content", Json.str "y")])] 7
    (Json.obj [("title", Json.str "x"), ("content", Json.str "y")])
    (Or.inl ⟨rfl, _, rfl⟩) (by rfl) (by rfl) (by decide) (by rfl) (by rfl)

/-- C10: add validates its string inputs before the setup gate, so a bad
title or content yields InvalidInput even before any setup; get and
delete test the setup gate first and answer SetupRequired whatever the
id. -/
theorem C10_validation_order :
    (∀ (w : World) (t c : Json),
        preSetup w →
        (checkStringOne t = false ∨ checkStringOne c = false) →
        add_note t c w = ((false, some (ResErr.code ErrorCode.INVALID_INPUT)), w)) ∧
    (∀ (w : World) (id : Option String),
        preSetup w →
        get_note id w = ((false, some (ResErr.code ErrorCode.SETUP_REQUIRED), none), w) ∧
        delete_note id w = ((false, some (ResErr.code ErrorCode.SETUP_REQUIRED)), w)) := by
  constructor
  · intro w t c hpre hbad
    by_cases ht : checkStringOne t = true
    · have hc2 : checkStringOne c = false := by
        rcases hbad with hbad | hbad
        · rw [ht] at hbad; exact absurd hbad (by decide)
        · exact hbad
      simp [add_note, catch2, add_note_run, check_string, ht, hc2]
    · have ht2 : checkStringOne t = false := by simpa using ht
      simp [add_note, catch2, add_note_run, check_string, ht2]
  · intro w id hpre
    exact ⟨by simp [get_note, catch3, get_note_run_presetup w id hpre],
           by simp [delete_note, catch2, delete_note_run_presetup w id hpre]⟩

/-- Witness for C10: an empty title on the pristine world yields
InvalidInput; get on the same world yields SetupRequired. -/
theorem C10_validation_order_witness :
    add_note (Json.str "") (Json.str "x") {} =
      ((false, some (ResErr.code ErrorCode.INVALID_INPUT)), ({} : World)) ∧
    get_note (some "0") {} =
      ((false, some (ResErr.code ErrorCode.SETUP_REQUIRED), none), ({} : World)) :=
  ⟨C10_validation_order.1 {} (Json.str "") (Json.str "x")
      (Or.inr ⟨rfl, Or.inl rfl⟩) (Or.inl (by decide)),
   (C10_validation_order.2 {} (some "0") (Or.inr ⟨rfl, Or.inl rfl⟩)).1⟩

/-- C7 counterexample: before any setup, add with an empty title fails
with InvalidInput, not SetupRequired, refuting the claim that every note
operation invoked before setup fails with SetupRequired. -/
theorem C7_counterexample :
    preSetup ({} : World) ∧
    add_note (Json.str "") (Json.str "x") {} =
      ((false, some (ResErr.code ErrorCode.INVALID_INPUT)), ({} : World)) ∧
    ResErr.code ErrorCode.INVALID_INPUT ≠ ResErr.code ErrorCode.SETUP_REQUIRED :=
  ⟨Or.inr ⟨rfl, Or.inl rfl⟩, rfl, by decide⟩

/-- C7 (amended): before setup has completed, get and delete fail with
SetupRequired for every id and change nothing, and add does too whenever
its title and content pass the string validation that runs first. -/
theorem C7_setup_required :
    ∀ (w : World), preSetup w →
      (∀ id, get_note id w =
        ((false, some (ResErr.code ErrorCode.SETUP_REQUIRED), none), w)) ∧
      (∀ id, delete_note id w =
        ((false, some (ResErr.code ErrorCode.SETUP_REQUIRED)), w)) ∧
      (∀ t c, checkStringOne t = true → checkStringOne c = true →
          add_note t c w = ((false, some (ResErr.code ErrorCode.SETUP_REQUIRED)), w)) := by
  intro w hpre
  refine ⟨fun id => ?_, fun id => ?_, fun t c ht hcs => ?_⟩
  · simp [get_note, catch3, get_note_run_presetup w id hpre]
  · simp [delete_note, catch2, delete_note_run_presetup w id hpre]
  · simp [add_note, catch2, add_note_run_presetup w t c hpre ht hcs]

/-- Witness for C7: all three operations on the pristine world. -/
theorem C7_setup_required_witness :
    get_note (some "1") {} =
      ((false, some (ResErr.code ErrorCode.SETUP_REQUIRED), none), ({} : World)) ∧
    delete_note (some "1") {} =
      ((false, some (ResErr.code ErrorCode.SETUP_REQUIRED)), ({} : World)) ∧
    add_note (Json.str "t") (Json.str "c") {} =
      ((false, some (ResErr.code ErrorCode.SETUP_REQUIRED)), ({} : World)) := by
  have h := C7_setup_required {} (Or.inr ⟨rfl, Or.inl rfl⟩)
  exact ⟨h.1 (some "1"), h.2.1 (some "1"), h.2.2 (Json.str "t") (Json.str "c") rfl rfl⟩


/-- Online world whose blob holds well-formed JSON with a non-object top
level. -/
def corruptW : World :=
  { session := { blob_rSet := true, bucketSet := true, source := "online" },
    remote := Raw.wellFormed (Json.arr [Json.num 1]) }

/-- Offline world whose local file holds malformed bytes. -/
def malformedLocalW : World :=
  { session := { source := "offline" }, localF := some Raw.malformed }

/-- C2 counterexample: well-formed bytes whose top-level JSON value is
not an object do not resolve to an empty document — the decoded array is
returned as-is — and the subsequent get-all surfaces an error instead of
proceeding as if there were no notes. -/
theorem C2_counterexample :
    load_notes corruptW = (Except.ok (Json.arr [Json.num 1]), corruptW) ∧
    Json.arr [Json.num 1] ≠ Json.obj [] ∧
    (get_note none corruptW).1 =
      (false, some (ResErr.exc "AttributeError: object has no attribute items"), none) :=
  ⟨rfl, fun h => Json.noConfusion h, rfl⟩

/-- C2 (amended): on a ready backend the decode step never raises;
malformed bytes resolve to the empty document on both backends, and a
falsy decoded value (null, [], 0, "", {}) degrades to empty on the
local backend; a truthy well-formed non-object value is returned as
decoded and later operations may surface an error on it. -/
theorem C2_decode_resilience :
    (∀ w : World, backendReady w → load_notes w = (Except.ok (loadedDoc w), w)) ∧
    (∀ w : World, w.session.source = "online" → w.session.blob_rSet = true →
        w.session.bucketSet = true → w.remote = Raw.malformed →
        load_notes w = (Except.ok (Json.obj []), w)) ∧
    (∀ w : World, w.session.source = "offline" → w.localF = some Raw.malformed →
        load_notes w = (Except.ok (Json.obj []), w)) ∧
    (∀ (w : World) (v : Json), w.session.source = "offline" →
        w.localF = some (Raw.wellFormed v) → truthy v = false →
        load_notes w = (Except.ok (Json.obj []), w)) := by
  refine ⟨load_notes_ready, ?_, ?_, ?_⟩
  · intro w hs hblob hbuck hr
    have h := load_notes_ready w (Or.inr ⟨hs, hblob, hbuck⟩)
    rw [h]
    simp [loadedDoc, hs, hr, decodeRaw]
  · intro w hs hf
    have h := load_notes_ready w (Or.inl ⟨hs, _, hf⟩)
    rw [h]
    simp [loadedDoc, hs, hf, decodeRaw, pyOr]
  · intro w v hs hf hv
    have h := load_notes_ready w (Or.inl ⟨hs, _, hf⟩)
    rw [h]
    simp [loadedDoc, hs, hf, decodeRaw, pyOr, hv]

/-- Witness for C2: malformed local bytes decode to the empty document. -/
theorem C2_decode_resilience_witness :
    load_notes malformedLocalW = (Except.ok (Json.obj []), malformedLocalW) :=
  C2_decode_resilience.2.2.1 malformedLocalW rfl rfl

theorem writeDoc_writes (w : World) (notes : Json) :
    (writeDoc w notes).writes = w.writes ++ [notes] := by
  by_cases hs : w.session.source = "offline" <;> simp [writeDoc, hs]

/-- C8: every persistence of note data goes through `persist`, which
injects the `_meta` entry refreshed from the in-memory counters into the
very document being saved, in one overwrite; a successful add or delete
performs exactly one overwrite carrying both the note mutation and the
final in-memory meta; the non-mutating paths write nothing. -/
theorem C8_atomic_meta_persist :
    (∀ (w : World) (o : List (String × Json)), backendReady w →
        persist (Json.obj o) w =
          (Except.ok (), writeDoc w (Json.obj (setKey o "_meta" (metaJson w.session))))) ∧
    (∀ (w : World) (t c idv : Json) (o : List (String × Json)) (sg : StorageState),
        checkStringOne t = true → checkStringOne c = true →
        backendReady w → loadedDoc w = Json.obj o →
        generate_id w = (Except.ok idv, { w with session := sg }) →
        backendReady { w with session := sg } →
        w.writes = [] →
        (add_note t c w).1 = (true, none) ∧
        (add_note t c w).2.writes =
          [Json.obj (setKey (setKey o (pyStr idv)
             (Json.obj [("title", t), ("content", c)])) "_meta" (metaJson sg))] ∧
        lookupKey (setKey (setKey o (pyStr idv)
             (Json.obj [("title", t), ("content", c)])) "_meta" (metaJson sg)) "_meta" =
          some (metaJson ((add_note t c w).2.session))) ∧
    (∀ (w : World) (s : String) (o : List (String × Json)) (n : Int)
        (l : List Json) (v : Json),
        backendReady w → loadedDoc w = Json.obj o →
        pyInt s = some n → 0 ≤ n →
        lookupKey o s = some v → v.isNull = false →
        w.session.old_ids = Json.arr l →
        w.writes = [] →
        (delete_note (some s) w).1 = (true, none) ∧
        (delete_note (some s) w).2.writes =
          [Json.obj (setKey (delKey o s) "_meta"
             (metaJson { w.session with old_ids := Json.arr (l ++ [Json.num n]) }))] ∧
        lookupKey (setKey (delKey o s) "_meta"
             (metaJson { w.session with old_ids := Json.arr (l ++ [Json.num n]) })) "_meta" =
          some (metaJson ((delete_note (some s) w).2.session))) ∧
    (∀ (w : World) (s : String) (o : List (String × Json)) (n : Int),
        backendReady w → loadedDoc w = Json.obj o →
        pyInt s = some n → 0 ≤ n → lookupKey o s = none →
        (delete_note (some s) w).2.writes = w.writes ∧
        (get_note none w).2.writes = w.writes) := by
  refine ⟨persist_ready, ?_, ?_, ?_⟩
  · intro w t c idv o sg ht hcs hb ho hg hbg hw
    have hrun := add_note_run_spec w t c idv o sg ht hcs hb ho hg hbg
    refine ⟨by simp [add_note, catch2, hrun], ?_, ?_⟩
    · simp [add_note, catch2, hrun, writeDoc_writes, hw]
    · simp [add_note, catch2, hrun, writeDoc_session, lookupKey_setKey_self]
  · intro w s o n l v hb ho hp hn hfound hv hold hw
    have hrun := delete_note_run_present w s o n l v hb ho hp hn hfound hv hold
    refine ⟨by simp [delete_note, catch2, hrun], ?_, ?_⟩
    · simp [delete_note, catch2, hrun, writeDoc_writes, hw]
    · simp [delete_note, catch2, hrun, writeDoc_session, lookupKey_setKey_self]
  · intro w s o n hb ho hp hn habs
    have habs2 : ((lookupKey o s).getD Json.null).isNull = true := by
      simp [habs, Json.isNull]
    have hdel := delete_note_run_absent w s o n hb ho hp hn habs2
    have hget := get_note_run_all w o hb ho
    exact ⟨by simp [delete_note, catch2, hdel], by simp [get_note, catch3, hget]⟩

/-- Witness for C8: the chokepoint clause evaluated on the FIFO scenario
world: one overwrite holding the meta refreshed from memory. -/
theorem C8_atomic_meta_persist_witness :
    persist (Json.obj []) fifoW =
      (Except.ok (), writeDoc fifoW
        (Json.obj (setKey [] "_meta" (metaJson fifoW.session)))) :=
  C8_atomic_meta_persist.1 fifoW [] (Or.inl ⟨rfl, Raw.wellFormed fifoDoc, rfl⟩)


theorem setup_handler_bootstrap (w1 : World)
    (hs : w1.session.source = "offline") (hlf : w1.localF = none) :
    setup_ensure_meta w1 =
      (Except.ok (), { w1 with
        localF := some (Raw.wellFormed (Json.obj [("_meta", zeroMeta)])),
        writes := w1.writes ++ [Json.obj [("_meta", zeroMeta)]] }) := by
  have htw : touchedW w1 = { w1 with localF := some Raw.malformed } := by
    simp [touchedW, hs, hlf]
  have hbm : backendReady (touchedW w1) := by
    rw [htw]; exact Or.inl ⟨hs, Raw.malformed, rfl⟩
  have ho : loadedDoc (touchedW w1) = Json.obj [] := by
    rw [htw]; simp [loadedDoc, hs, decodeRaw, pyOr]
  have h := setup_ensure_meta_zero w1 [] hbm ho rfl
  rw [htw] at h
  rw [h]
  simp [writeDoc, hs, setKey]

/-- Session left behind by setup's NotFound and Forbidden handlers (the
generic handler passes the empty string as bucket name). -/
def handlerSession (s : StorageState) (bn : Option String) : StorageState :=
  { s with
    clientSet := false,
    bucket_name := bn,
    bucketSet := false,
    blob_rSet := false,
    source := "offline" }

/-- Offline post-handler world with the freshly bootstrapped local file:
add succeeds and persists the note locally under the first fresh id. -/
theorem degraded_add (w2 : World)
    (hs : w2.session.source = "offline")
    (hlf : w2.localF = some (Raw.wellFormed (Json.obj [("_meta", zeroMeta)])))
    (hold : w2.session.old_ids = Json.arr [])
    (hcount : w2.session.id_count = Json.num 0) :
    (add_note (Json.str "t") (Json.str "c") w2).1 = (true, none) ∧
    (∃ d, ((add_note (Json.str "t") (Json.str "c") w2).2).localF =
        some (Raw.wellFormed (Json.obj d)) ∧
      lookupKey d "0" =
        some (Json.obj [("title", Json.str "t"), ("content", Json.str "c")])) ∧
    ((add_note (Json.str "t") (Json.str "c") w2).2).remote = w2.remote := by
  have hb2 : backendReady w2 := Or.inl ⟨hs, _, hlf⟩
  have ho2 : loadedDoc w2 = Json.obj [("_meta", zeroMeta)] := by
    simp [loadedDoc, hs, hlf, decodeRaw, pyOr_obj]
  have hg := generate_id_fresh w2 0 hold hcount
  have hbg : backendReady
      { w2 with session := { w2.session with id_count := Json.num (0 + 1) } } :=
    Or.inl ⟨hs, _, hlf⟩
  have hrun := add_note_run_spec w2 (Json.str "t") (Json.str "c") (Json.num 0)
    [("_meta", zeroMeta)] _ rfl rfl hb2 ho2 hg hbg
  refine ⟨by simp [add_note, catch2, hrun], ?_, ?_⟩
  · refine ⟨setKey (setKey [("_meta", zeroMeta)] (pyStr (Json.num 0))
        (Json.obj [("title", Json.str "t"), ("content", Json.str "c")])) "_meta"
        (metaJson { w2.session with id_count := Json.num (0 + 1) }), ?_, ?_⟩
    · simp [add_note, catch2, hrun, writeDoc, hs]
    · rw [show pyStr (Json.num 0) = "0" from rfl,
        lookupKey_setKey_ne _ "_meta" "0" _ (by decide), lookupKey_setKey_self]
  · simp [add_note, catch2, hrun, writeDoc, hs]

/-- Failure kind raised inside setup's try block, mapped to the
degraded-success code its handler returns. -/
def setupFailCode : RemoteSetup → Option ErrorCode
  | RemoteSetup.ok _ => none
  | RemoteSetup.notFound => some ErrorCode.NOT_FOUND_USE_LOCAL
  | RemoteSetup.forbidden => some ErrorCode.PERMISSION_DENIED_USE_LOCAL
  | RemoteSetup.otherErr => some ErrorCode.SERVER_ERROR_USE_LOCAL

/-- C4: a remote failure during setup degrades instead of failing: each
failure kind transitions the session to offline, bootstraps the local
file, and returns its degraded-success code (NotFoundUseLocal,
PermissionDeniedUseLocal or ServerErrorUseLocal); a subsequent
add("t","c") succeeds and persists to the local backend, leaving the
remote untouched. -/
theorem C4_degraded_setup :
    ∀ (w : World) (bn : String) (env : RemoteSetup) (c : ErrorCode),
      checkStringOne (Json.str bn) = true →
      setupFailCode env = some c →
      w.localF = none →
      w.session.old_ids = Json.arr [] →
      w.session.id_count = Json.num 0 →
      (setup (some bn) env w).1 = Except.ok (false, some c) ∧
      ((setup (some bn) env w).2).session.source = "offline" ∧
      ((setup (some bn) env w).2).localF =
        some (Raw.wellFormed (Json.obj [("_meta", zeroMeta)])) ∧
      ((setup (some bn) env w).2).remote = w.remote ∧
      (add_note (Json.str "t") (Json.str "c") ((setup (some bn) env w).2)).1 =
        (true, none) ∧
      (∃ d, ((add_note (Json.str "t") (Json.str "c") ((setup (some bn) env w).2)).2).localF =
          some (Raw.wellFormed (Json.obj d)) ∧
        lookupKey d "0" =
          some (Json.obj [("title", Json.str "t"), ("content", Json.str "c")])) ∧
      ((add_note (Json.str "t") (Json.str "c") ((setup (some bn) env w).2)).2).remote =
        ((setup (some bn) env w).2).remote := by
  intro w bn env c hbn hfc hlf hold hcount
  cases env with
  | ok b => simp [setupFailCode] at hfc
  | notFound =>
      simp only [setupFailCode, Option.some.injEq] at hfc
      subst hfc
      have hboot := setup_handler_bootstrap
        { w with session := handlerSession w.session (some bn) } rfl hlf
      have hsetup : setup (some bn) RemoteSetup.notFound w =
          (Except.ok (false, some ErrorCode.NOT_FOUND_USE_LOCAL),
           { w with
             session := handlerSession w.session (some bn),
             localF := some (Raw.wellFormed (Json.obj [("_meta", zeroMeta)])),
             writes := w.writes ++ [Json.obj [("_meta", zeroMeta)]] }) := by
        simp [handlerSession] at hboot ⊢
        simp [setup, setup_run, check_string_single _ hbn, hboot]
      rw [hsetup]
      exact ⟨rfl, rfl, rfl, rfl, degraded_add _ rfl rfl hold hcount⟩
  | forbidden =>
      simp only [setupFailCode, Option.some.injEq] at hfc
      subst hfc
      have hboot := setup_handler_bootstrap
        { w with session := handlerSession w.session (some bn) } rfl hlf
      have hsetup : setup (some bn) RemoteSetup.forbidden w =
          (Except.ok (false, some ErrorCode.PERMISSION_DENIED_USE_LOCAL),
           { w with
             session := handlerSession w.session (some bn),
             localF := some (Raw.wellFormed (Json.obj [("_meta", zeroMeta)])),
             writes := w.writes ++ [Json.obj [("_meta", zeroMeta)]] }) := by
        simp [handlerSession] at hboot ⊢
        simp [setup, setup_run, check_string_single _ hbn, hboot]
      rw [hsetup]
      exact ⟨rfl, rfl, rfl, rfl, degraded_add _ rfl rfl hold hcount⟩
  | otherErr =>
      simp only [setupFailCode, Option.some.injEq] at hfc
      subst hfc
      have hboot := setup_handler_bootstrap
        { w with session := handlerSession w.session (some "") } rfl hlf
      have hsetup : setup (some bn) RemoteSetup.otherErr w =
          (Except.ok (false, some ErrorCode.SERVER_ERROR_USE_LOCAL),
           { w with
             session := handlerSession w.session (some ""),
             localF := some (Raw.wellFormed (Json.obj [("_meta", zeroMeta)])),
             writes := w.writes ++ [Json.obj [("_meta", zeroMeta)]] }) := by
        simp [handlerSession] at hboot ⊢
        simp [setup, setup_run, check_string_single _ hbn, hboot]
      rw [hsetup]
      exact ⟨rfl, rfl, rfl, rfl, degraded_add _ rfl rfl hold hcount⟩


/-- Witness for C4: a not-found failure on the pristine world, followed
by a successful local add. -/
theorem C4_degraded_setup_witness :
    (setup (some "b") RemoteSetup.notFound {}).1 =
      Except.ok (false, some ErrorCode.NOT_FOUND_USE_LOCAL) ∧
    ((setup (some "b") RemoteSetup.notFound ({} : World)).2).session.source = "offline" ∧
    (add_note (Json.str "t") (Json.str "c")
      ((setup (some "b") RemoteSetup.notFound ({} : World)).2)).1 = (true, none) := by
  have h := C4_degraded_setup {} "b" RemoteSetup.notFound ErrorCode.NOT_FOUND_USE_LOCAL
    (by decide) rfl rfl rfl rfl
  exact ⟨h.1, h.2.1, h.2.2.2.2.1⟩


theorem touchedW_session (w : World) : (touchedW w).session = w.session := by
  by_cases hs : w.session.source = "offline"
  · cases hlf : w.localF <;> simp [touchedW, hs, hlf]
  · simp [touchedW, hs]

theorem catch3_snd (m : PyM (Bool × Option ErrorCode × Option Json)) (w : World) :
    (catch3 m w).2 = (m w).2 := by
  unfold catch3
  rcases hm : m w with ⟨r, w2⟩
  cases r with
  | error e => rfl
  | ok a => obtain ⟨b, c, d⟩ := a; rfl

theorem get_note_run_world (w : World) (o : List (String × Json))
    (hb : backendReady w) (ho : loadedDoc w = Json.obj o) (id : Option String) :
    (get_note_run id w).2 = w := by
  have hload := load_notes_ready w hb
  rcases hb with ⟨hs, r, hf⟩ | ⟨hs, hblob, hbuck⟩
  · cases id with
    | none => simp [get_note_run, hs, hf, hload, ho, hide_meta]
    | some s =>
        rcases hps : parse_id (some s) with _ | c
        · simp [get_note_run, hs, hf, hload, ho, hps, pyGetD]
          split <;> rfl
        · simp [get_note_run, hs, hf, hload, hps]
  · cases id with
    | none => simp [get_note_run, hs, hblob, hbuck, hload, ho, hide_meta]
    | some s =>
        rcases hps : parse_id (some s) with _ | c
        · simp [get_note_run, hs, hblob, hbuck, hload, ho, hps, pyGetD]
          split <;> rfl
        · simp [get_note_run, hs, hblob, hbuck, hload, hps]

/-- Remote store holding a document whose meta carries `id_count = 3`,
`old_ids = [7]`. -/
def c1w0 : World :=
  { remote := Raw.wellFormed (Json.obj
      [("_meta", Json.obj [("id_count", Json.num 3), ("old_ids", Json.arr [Json.num 7])])]) }

/-- World after a successful online setup on `c1w0`: the bootstrap loaded
3/[7] into memory. -/
def c1w1 : World := (setup (some "b") (RemoteSetup.ok true) c1w0).2

/-- World after a second, degraded setup on `c1w1`: the bootstrap
persisted a zeroed `_meta` to the fresh local file without resetting the
in-memory counters. -/
def c1w2 : World := (setup (some "b") RemoteSetup.notFound c1w1).2

/-- C1 counterexample: after a completed (degraded) setup whose stored
document lacked `_meta`, the bootstrap persists a zeroed meta but leaves
the in-memory `id_count = 3`, `old_ids = [7]`, so memory differs from the
persisted meta. -/
theorem C1_counterexample :
    c1w1.session.id_count = Json.num 3 ∧
    c1w1.session.old_ids = Json.arr [Json.num 7] ∧
    (setup (some "b") RemoteSetup.notFound c1w1).1 =
      Except.ok (false, some ErrorCode.NOT_FOUND_USE_LOCAL) ∧
    c1w2.session.id_count = Json.num 3 ∧
    c1w2.activeDoc = some (Json.obj [("_meta", zeroMeta)]) ∧
    ¬ metaConsistent c1w2 := by
  refine ⟨rfl, rfl, rfl, rfl, rfl, ?_⟩
  rintro ⟨d, m, hd, hm, hic, hoi⟩
  have h0 : c1w2.activeDoc = some (Json.obj [("_meta", zeroMeta)]) := rfl
  rw [h0] at hd
  injection hd with h1
  injection h1 with h2
  subst h2
  simp only [lookupKey, zeroMeta, if_pos rfl] at hm
  injection hm with h3
  injection h3 with h4
  subst h4
  have h5 : c1w2.session.id_count = Json.num 3 := rfl
  rw [h5] at hic
  simp [lookupKey] at hic

/-- C1 (amended): after every successful add the freshly persisted
`_meta` equals the in-memory counters; likewise after every delete of a
present id; get and an absent-id delete change neither memory nor store;
the bootstrap restores the equality whenever the stored document has a
`_meta` entry (loading it into memory), and when it lacks one it
persists a zeroed `_meta` without resetting memory, so the equality then
holds provided the in-memory counters are still at their zeroed
defaults. -/
theorem C1_meta_sync :
    (∀ (w : World) (t c idv : Json) (o : List (String × Json)) (sg : StorageState),
        checkStringOne t = true → checkStringOne c = true →
        backendReady w → loadedDoc w = Json.obj o →
        generate_id w = (Except.ok idv, { w with session := sg }) →
        backendReady { w with session := sg } →
        (add_note t c w).1 = (true, none) ∧ metaConsistent ((add_note t c w).2)) ∧
    (∀ (w : World) (s : String) (o : List (String × Json)) (n : Int)
        (l : List Json) (v : Json),
        backendReady w → loadedDoc w = Json.obj o →
        pyInt s = some n → 0 ≤ n →
        lookupKey o s = some v → v.isNull = false →
        w.session.old_ids = Json.arr l →
        (delete_note (some s) w).1 = (true, none) ∧
        metaConsistent ((delete_note (some s) w).2)) ∧
    (∀ (w : World) (o : List (String × Json)) (id : Option String),
        backendReady w → loadedDoc w = Json.obj o →
        (get_note id w).2 = w) ∧
    (∀ (w : World) (s : String) (o : List (String × Json)) (n : Int),
        backendReady w → loadedDoc w = Json.obj o →
        pyInt s = some n → 0 ≤ n → lookupKey o s = none →
        delete_note (some s) w = ((true, none), w)) ∧
    (∀ (w : World) (o m : List (String × Json)) (icv oiv : Json),
        backendReady (touchedW w) →
        (touchedW w).activeDoc = some (Json.obj o) →
        lookupKey o "_meta" = some (Json.obj m) →
        lookupKey m "id_count" = some icv →
        lookupKey m "old_ids" = some oiv →
        (setup_ensure_meta w).1 = Except.ok () ∧
        ((setup_ensure_meta w).2).session.id_count = icv ∧
        ((setup_ensure_meta w).2).session.old_ids = oiv ∧
        metaConsistent ((setup_ensure_meta w).2)) ∧
    (∀ (w : World) (o : List (String × Json)),
        backendReady (touchedW w) →
        (touchedW w).activeDoc = some (Json.obj o) →
        lookupKey o "_meta" = none →
        w.session.id_count = Json.num 0 →
        w.session.old_ids = Json.arr [] →
        (setup_ensure_meta w).1 = Except.ok () ∧
        metaConsistent ((setup_ensure_meta w).2)) := by
  refine ⟨?_, ?_, ?_, ?_, ?_, ?_⟩
  · intro w t c idv o sg ht hcs hb ho hg hbg
    have hrun := add_note_run_spec w t c idv o sg ht hcs hb ho hg hbg
    have h2 : (add_note t c w).2 = writeDoc { w with session := sg }
        (Json.obj (setKey (setKey o (pyStr idv) (Json.obj [("title", t), ("content", c)]))
          "_meta" (metaJson sg))) := by simp [add_note, catch2, hrun]
    refine ⟨by simp [add_note, catch2, hrun], ?_⟩
    rw [h2]
    exact metaConsistent_writeDoc { w with session := sg } _
  · intro w s o n l v hb ho hp hn hfound hv hold
    have hrun := delete_note_run_present w s o n l v hb ho hp hn hfound hv hold
    have h2 : (delete_note (some s) w).2 =
        writeDoc { w with session := { w.session with old_ids := Json.arr (l ++ [Json.num n]) } }
          (Json.obj (setKey (delKey o s) "_meta"
            (metaJson { w.session with old_ids := Json.arr (l ++ [Json.num n]) }))) := by
      simp [delete_note, catch2, hrun]
    refine ⟨by simp [delete_note, catch2, hrun], ?_⟩
    rw [h2]
    exact metaConsistent_writeDoc
      { w with session := { w.session with old_ids := Json.arr (l ++ [Json.num n]) } } _
  · intro w o id hb ho
    rw [show (get_note id w).2 = (get_note_run id w).2 from catch3_snd _ w]
    exact get_note_run_world w o hb ho id
  · intro w s o n hb ho hp hn habs
    have habs2 : ((lookupKey o s).getD Json.null).isNull = true := by
      simp [habs, Json.isNull]
    have hrun := delete_note_run_absent w s o n hb ho hp hn habs2
    simp [delete_note, catch2, hrun]
  · intro w o m icv oiv hb ha hm hic hoi
    have ho := loadedDoc_of_activeDoc (touchedW w) o hb ha
    have hrun := setup_ensure_meta_loads w o m hb ho hm
    refine ⟨by rw [hrun], by rw [hrun]; simp [hic], by rw [hrun]; simp [hoi], ?_⟩
    rw [hrun]
    refine ⟨o, m, ha, hm, ?_, ?_⟩
    · simp [hic]
    · simp [hoi]
  · intro w o hb ha hm hz hoz
    have ho := loadedDoc_of_activeDoc (touchedW w) o hb ha
    have hrun := setup_ensure_meta_zero w o hb ho hm
    refine ⟨by rw [hrun], ?_⟩
    rw [hrun]
    refine ⟨setKey o "_meta" zeroMeta,
      [("id_count", Json.num 0), ("old_ids", Json.arr [])],
      activeDoc_writeDoc _ _, ?_, ?_, ?_⟩
    · rw [lookupKey_setKey_self]; rfl
    · rw [writeDoc_session, touchedW_session, hz]; rfl
    · rw [writeDoc_session, touchedW_session, hoz]; rfl

/-- Witness for C1: the bootstrap-with-meta clause evaluated on the
remote store of the counterexample chain. -/
theorem C1_meta_sync_witness :
    (setup_ensure_meta { c1w0 with session := { c1w0.session with
        clientSet := true, bucket_name := some "b", bucketSet := true,
        blob_rSet := true } }).1 = Except.ok () ∧
    ((setup_ensure_meta { c1w0 with session := { c1w0.session with
        clientSet := true, bucket_name := some "b", bucketSet := true,
        blob_rSet := true } }).2).session.id_count = Json.num 3 := by
  have h := C1_meta_sync.2.2.2.2.1
    { c1w0 with session := { c1w0.session with
        clientSet := true, bucket_name := some "b", bucketSet := true,
        blob_rSet := true } }
    [("_meta", Json.obj [("id_count", Json.num 3), ("old_ids", Json.arr [Json.num 7])])]
    [("id_count", Json.num 3), ("old_ids", Json.arr [Json.num 7])]
    (Json.num 3) (Json.arr [Json.num 7])
    (Or.inr ⟨rfl, rfl, rfl⟩) rfl rfl rfl rfl
  exact ⟨h.1, h.2.1⟩
